import Mathlib

/-!
# Verification of the multi-endpoint execution engine of an etcd HTTP client

Shallow embedding of the Rust sources:
* `src/first_ok.rs` — the failover executor `first_ok`;
* `src/kv.rs` — `raw_set`, `raw_get`, `raw_delete`, `watch` and the
  conditional-write parameter encoding;
* `src/client.rs` — `ClusterInfo` header extraction, `Client::custom`,
  `Client::health` / `Client::versions` fan-out.

Asynchronous network I/O is modelled by a `transport` oracle mapping a
request (method, URI, parameter pairs) to either a transport-level error or
an `HttpResponse`; the watch timeout race is modelled by a boolean oracle
saying which of the two racing futures completes first.
-/

namespace Etcd

/-- An endpoint / request URI (Rust `hyper::Uri`), kept abstract as its text. -/
structure Uri where
  text : String
deriving Repr, DecidableEq

/-! ## Failover executor (`src/first_ok.rs`) -/

/-- The loop body of `first_ok`: iterate over the remaining endpoints,
accumulating errors (Rust `errors.push(err)` appends at the end), returning
the first `Ok` immediately. -/
def first_ok_loop {ε V E : Type} (callback : ε → Except E V) :
    List ε → List E → Except (List E) V
  | [], errors => .error errors
  | endpoint :: rest, errors =>
    match callback endpoint with
    | .ok result => .ok result
    | .error err => first_ok_loop callback rest (errors ++ [err])

/-- Embedding of `first_ok` (src/first_ok.rs, lines 9–27): executes the
callback with each endpoint in order and short-circuits on the first
success; if all endpoints fail, returns the accumulated error vector. -/
def first_ok {ε V E : Type} (endpoints : List ε) (callback : ε → Except E V) :
    Except (List E) V :=
  first_ok_loop callback endpoints []

/-- The endpoints on which `first_ok` actually invokes the callback
(call-count instrumentation of the same loop). -/
def first_ok_attempts {ε V E : Type} (endpoints : List ε)
    (callback : ε → Except E V) : List ε :=
  match endpoints with
  | [] => []
  | endpoint :: rest =>
    match callback endpoint with
    | .ok _ => [endpoint]
    | .error _ => endpoint :: first_ok_attempts rest callback

/-- The accumulator of `first_ok_loop` only prefixes the final error list. -/
theorem first_ok_loop_append {ε V E : Type} (callback : ε → Except E V)
    (endpoints : List ε) (acc : List E) :
    first_ok_loop callback endpoints acc =
      match first_ok_loop callback endpoints [] with
      | .ok v => .ok v
      | .error es => .error (acc ++ es) := by
  induction endpoints generalizing acc with
  | nil => simp [first_ok_loop]
  | cons e rest ih =>
    cases h : callback e with
    | ok v => simp [first_ok_loop, h]
    | error err =>
      simp only [first_ok_loop, h, List.nil_append]
      rw [ih (acc ++ [err]), ih [err]]
      cases first_ok_loop callback rest [] <;> simp

/-- If every remaining endpoint fails, the loop returns all the errors in
attempt order, appended to the accumulator. -/
theorem first_ok_loop_all_error {ε V E : Type} (callback : ε → Except E V)
    (errOf : ε → E) (endpoints : List ε) (acc : List E)
    (hfail : ∀ e ∈ endpoints, callback e = .error (errOf e)) :
    first_ok_loop callback endpoints acc = .error (acc ++ endpoints.map errOf) := by
  induction endpoints generalizing acc with
  | nil => simp [first_ok_loop]
  | cons e rest ih =>
    have he := hfail e (List.mem_cons_self e rest)
    simp only [first_ok_loop, he]
    rw [ih (acc ++ [errOf e]) (fun x hx => hfail x (List.mem_cons_of_mem _ hx))]
    simp

/-- C1. Failover short-circuits on first success: for every endpoint list and
every operation, if the attempts against the endpoints before position `i`
all fail and the attempt against endpoint `i` returns `Ok v`, then `first_ok`
returns `Ok v`, and the operation is invoked exactly on the first `i + 1`
endpoints — never on any endpoint after `i`. -/
theorem first_ok_short_circuits_on_first_success {ε V E : Type}
    (endpoints : List ε) (callback : ε → Except E V) (i : Nat) (v : V)
    (hi : i < endpoints.length)
    (hbefore : ∀ j (hj : j < i), ∃ err,
      callback (endpoints.get ⟨j, hj.trans hi⟩) = .error err)
    (hok : callback (endpoints.get ⟨i, hi⟩) = .ok v) :
    first_ok endpoints callback = .ok v ∧
    first_ok_attempts endpoints callback = endpoints.take (i + 1) := by
  induction endpoints generalizing i with
  | nil => exact absurd hi (Nat.not_lt_zero i)
  | cons e rest ih =>
    cases i with
    | zero =>
      simp only [List.get] at hok
      exact ⟨by simp [first_ok, first_ok_loop, hok],
             by simp [first_ok_attempts, hok]⟩
    | succ k =>
      obtain ⟨err, herr⟩ := hbefore 0 (Nat.succ_pos k)
      simp only [List.get] at herr
      have hk : k < rest.length := Nat.lt_of_succ_lt_succ hi
      have hrest := ih k hk
        (fun j hj => hbefore (j + 1) (Nat.succ_lt_succ hj))
        hok
      refine ⟨?_, ?_⟩
      · simp only [first_ok, first_ok_loop, herr, List.nil_append]
        rw [first_ok_loop_append]
        have := hrest.1
        simp only [first_ok] at this
        rw [this]
      · simp only [first_ok_attempts, herr, List.take_succ_cons]
        rw [hrest.2]

/-- Closed witness for C1: with endpoints `[10, 20, 30]`, the callback
failing on `10` and succeeding on `20`, the result is the success from `20`
and only the first two endpoints are attempted. -/
theorem first_ok_short_circuits_on_first_success_witness :
    first_ok [10, 20, 30]
        (fun e : Nat => if e = 20 then .ok "hit" else .error "miss") =
      .ok "hit" ∧
    first_ok_attempts [10, 20, 30]
        (fun e : Nat => if e = 20 then .ok "hit" else .error "miss") =
      [10, 20] :=
  first_ok_short_circuits_on_first_success [10, 20, 30]
    (fun e : Nat => if e = 20 then .ok "hit" else .error "miss") 1 "hit"
    (by decide)
    (fun j hj => by
      interval_cases j
      exact ⟨"miss", rfl⟩)
    rfl

/-- C2. Failover exhausts and aggregates on total failure: for every
non-empty endpoint list, if the operation fails on every endpoint, then
`first_ok` returns `Err` with exactly one error per endpoint, in the
original endpoint order, whatever the errors are. -/
theorem first_ok_aggregates_on_total_failure {ε V E : Type}
    (endpoints : List ε) (callback : ε → Except E V) (errOf : ε → E)
    (hne : endpoints ≠ [])
    (hfail : ∀ e ∈ endpoints, callback e = .error (errOf e)) :
    first_ok endpoints callback = .error (endpoints.map errOf) := by
  have := first_ok_loop_all_error callback errOf endpoints [] hfail
  simpa [first_ok] using this

/-- Closed witness for C2: both endpoints `[1, 2]` fail and the result is
the two errors in endpoint order. -/
theorem first_ok_aggregates_on_total_failure_witness :
    first_ok [1, 2] (fun e : Nat => (.error (e + 100) : Except Nat String)) =
      .error [101, 102] :=
  first_ok_aggregates_on_total_failure [1, 2]
    (fun e : Nat => (.error (e + 100) : Except Nat String)) (fun e => e + 100)
    (by decide) (fun e _ => rfl)

/-! ## Data model (`src/kv.rs`, `src/client.rs`) -/

/-- The `action` field of a key-value API response (src/kv.rs, `Action`). -/
inductive Action where
  | CompareAndDelete
  | CompareAndSwap
  | Create
  | Delete
  | Expire
  | Get
  | Set
  | Update
deriving Repr, DecidableEq

/-- An etcd key or directory (src/kv.rs, `Node`); `nodes` holds the children
of a directory, so the type is recursive. -/
inductive Node where
  | mk (created_index : Option Nat) (dir : Option Bool)
      (expiration : Option String) (key : Option String)
      (modified_index : Option Nat) (nodes : Option (List Node))
      (ttl : Option Int) (value : Option String)

/-- The decoded body of a successful key-value response (src/kv.rs,
`KeyValueInfo`). -/
structure KeyValueInfo where
  action : Action
  node : Node
  prev_node : Option Node := none

/-- The decoded body of a successful health-check response (src/client.rs,
`Health`). -/
structure Health where
  health : String
deriving Repr, DecidableEq

/-- Modelled from the spec: `src/version.rs` is not among the sources; the
spec treats version retrieval as a thin typed wrapper, so the decoded body
is kept abstract as its text. -/
structure VersionInfo where
  raw : String
deriving Repr, DecidableEq

/-- Modelled from the spec: `src/error.rs` is not among the sources; §6 of
the spec describes the structured API error as "message + cause". -/
structure ApiError where
  message : String
  cause : Option String := none
deriving Repr, DecidableEq

/-- A response body, as seen through `serde_json::from_slice`: it decodes as
at most one of the typed payloads, as the structured `ApiError`, or as
neither (`malformed`). -/
inductive Body where
  | kv (data : KeyValueInfo)
  | healthy (data : Health)
  | versioned (data : VersionInfo)
  | api (error : ApiError)
  | malformed (raw : String)

/-- `serde_json::from_slice::<KeyValueInfo>` on a body. -/
def Body.decode_kv : Body → Option KeyValueInfo
  | .kv data => some data
  | _ => none

/-- `serde_json::from_slice::<Health>` on a body. -/
def Body.decode_health : Body → Option Health
  | .healthy data => some data
  | _ => none

/-- `serde_json::from_slice::<VersionInfo>` on a body. -/
def Body.decode_version : Body → Option VersionInfo
  | .versioned data => some data
  | _ => none

/-- `serde_json::from_slice::<ApiError>` on a body. -/
def Body.decode_api : Body → Option ApiError
  | .api error => some error
  | _ => none

/-- Modelled from the spec: `src/error.rs` is not among the sources; the
variants follow the error taxonomy of §7 and the constructors used in
`src/kv.rs` and `src/client.rs` (`Error::NoEndpoints`,
`Error::InvalidConditions`, `Error::Api`, `Error::Serialization`, and the
transport/URI failures funnelled through `?`). `Serialization` carries the
body that failed to decode. -/
inductive Error where
  | NoEndpoints
  | InvalidConditions
  | Api (error : ApiError)
  | Serialization (body : Body)
  | Transport (message : String)
  | InvalidUri (uri : String)

/-- Modelled from the spec: `src/error.rs` is not among the sources;
`WatchError` is used in `src/kv.rs` with exactly the constructors
`WatchError::Timeout` and `WatchError::Other(Vec<Error>)`. -/
inductive WatchError where
  | Timeout
  | Other (errors : List Error)

/-! ## Cluster metadata from headers (`src/client.rs`, lines 242–300) -/

/-- The bytes of one HTTP header value, seen through
`String::from_utf8(v.as_bytes().to_vec())`: they either decode to a string
or are invalid UTF-8. -/
inductive HeaderValue where
  | utf8 (s : String)
  | invalid
deriving Repr, DecidableEq

/-- `http::HeaderMap`: association of header names to values; `get` returns
the first value for a name. -/
def HeaderMap := List (String × HeaderValue)

/-- `HeaderMap::get`. -/
def HeaderMap.get (headers : HeaderMap) (name : String) : Option HeaderValue :=
  (List.find? (fun p => p.1 = name) headers).map Prod.snd

def XETCD_CLUSTER_ID : String := "X-Etcd-Cluster-Id"

def XETCD_INDEX : String := "X-Etcd-Index"

def XRAFT_INDEX : String := "X-Raft-Index"

def XRAFT_TERM : String := "X-Raft-Term"

/-- Embedding of Rust `str::parse::<u64>`: a non-empty all-digit string
parses to its decimal value when it fits in 64 bits; anything else fails. -/
def parse_u64 (s : String) : Option Nat :=
  if s.data ≠ [] ∧ s.data.all Char.isDigit then
    let n := s.data.foldl (fun acc c => acc * 10 + (c.toNat - 48)) 0
    if n < 2 ^ 64 then some n else none
  else none

/-- Cluster metadata extracted from response headers (src/client.rs,
`ClusterInfo`). -/
structure ClusterInfo where
  cluster_id : Option String
  etcd_index : Option Nat
  raft_index : Option Nat
  raft_term : Option Nat
deriving Repr, DecidableEq

/-- `impl From<&HeaderMap<HeaderValue>> for ClusterInfo` (src/client.rs,
lines 242–300): each field is extracted from its own header with
`headers.get(NAME).and_then(...)`, decoding UTF-8 and, for the numeric
fields, parsing as `u64`; every failure is logged and becomes `None`. -/
def ClusterInfo.from_headers (headers : HeaderMap) : ClusterInfo :=
  let cluster_id := (headers.get XETCD_CLUSTER_ID).bind fun v =>
    match v with
    | .utf8 s => some s
    | .invalid => none
  let etcd_index := (headers.get XETCD_INDEX).bind fun v =>
    match v with
    | .utf8 s => parse_u64 s
    | .invalid => none
  let raft_index := (headers.get XRAFT_INDEX).bind fun v =>
    match v with
    | .utf8 s => parse_u64 s
    | .invalid => none
  let raft_term := (headers.get XRAFT_TERM).bind fun v =>
    match v with
    | .utf8 s => parse_u64 s
    | .invalid => none
  { cluster_id := cluster_id,
    etcd_index := etcd_index,
    raft_index := raft_index,
    raft_term := raft_term }

/-- The response wrapper returned by all API calls (src/client.rs,
`Response`). -/
structure Response (T : Type) where
  cluster_info : ClusterInfo
  data : T

/-! ## Transport boundary -/

/-- The HTTP methods used by the client. -/
inductive Method where
  | GET
  | PUT
  | POST
  | DELETE
deriving Repr, DecidableEq

/-- One HTTP response as consumed by the response handlers: status code,
headers, and the (already read) body. -/
structure HttpResponse where
  status : Nat
  headers : HeaderMap
  body : Body

/-- The transport oracle: building the request URL and performing the HTTP
exchange for one endpoint. It receives the method, the URI built from the
endpoint and the key, and the request's parameter pairs (query string or
form-encoded body), and returns either the per-attempt error produced by a
`?` in the source (URL parse failure, connection failure) or the response. -/
def Transport : Type :=
  Method → Uri → List (String × String) → Except Error HttpResponse

/-! ## Conditions and per-operation options

`src/options.rs` is not among the sources; the field lists below are taken
from their uses in `src/kv.rs` and from §3 of the spec, and the only
behaviour, `ComparisonConditions::is_empty`, is modelled from the spec. -/

/-- The condition set of a conditional write/delete (spec §3
`ConditionSet`, Rust `ComparisonConditions`). -/
structure ComparisonConditions where
  value : Option String := none
  modified_index : Option Nat := none
deriving Repr, DecidableEq

/-- Modelled from the spec: `ComparisonConditions::is_empty` lives in the
missing `src/options.rs`; per §4.2, validation "fails if both fields are
absent", so a condition set is empty exactly when both fields are `None`. -/
def ComparisonConditions.is_empty (conditions : ComparisonConditions) : Bool :=
  conditions.value.isNone && conditions.modified_index.isNone

/-- Options consumed by `raw_set` (Rust `SetOptions`), with the defaults
used by `..Default::default()` in `src/kv.rs`. -/
structure SetOptions where
  value : Option String := none
  ttl : Option Nat := none
  dir : Option Bool := none
  prev_exist : Option Bool := none
  conditions : Option ComparisonConditions := none
  refresh : Bool := false
  create_in_order : Bool := false
deriving Repr, DecidableEq

/-- Options consumed by `raw_delete` (Rust `DeleteOptions`). -/
structure DeleteOptions where
  recursive : Option Bool := none
  dir : Option Bool := none
  conditions : Option ComparisonConditions := none
deriving Repr, DecidableEq

/-- Options consumed by `raw_get` (Rust `options::GetOptions`). -/
structure GetOptionsInternal where
  recursive : Bool := false
  sort : Option Bool := none
  strong_consistency : Bool := false
  wait : Bool := false
  wait_index : Option Nat := none
deriving Repr, DecidableEq

/-- Rust `format!("{}", b)` on a `bool` (also `bool_to_cow` in `raw_set`). -/
def bool_str (b : Bool) : String :=
  if b then "true" else "false"

/-- `format!("{}v2/keys{}", endpoint, path)` (src/kv.rs, `build_uri`). The
re-parse of the formatted string can only fail on a malformed key, which the
transport oracle reports for the same text. -/
def build_uri (endpoint : Uri) (path : String) : Uri :=
  ⟨endpoint.text ++ "v2/keys" ++ path⟩

/-! ## Response handlers (the tails of `raw_delete`, `raw_get`, `raw_set`) -/

/-- src/kv.rs, lines 660–673 (`raw_delete`): status `OK` decodes the body as
`KeyValueInfo`; any other status decodes it as `ApiError`; a body decoding
as neither is a serialization error. -/
def raw_delete_handle (response : HttpResponse) : Except Error (Response KeyValueInfo) :=
  let cluster_info := ClusterInfo.from_headers response.headers
  if response.status = 200 then
    match response.body.decode_kv with
    | some data => .ok { data := data, cluster_info := cluster_info }
    | none => .error (.Serialization response.body)
  else
    match response.body.decode_api with
    | some error => .error (.Api error)
    | none => .error (.Serialization response.body)

/-- src/kv.rs, lines 718–732 (`raw_get`): same mapping as `raw_delete`,
success on status `OK` only. -/
def raw_get_handle (response : HttpResponse) : Except Error (Response KeyValueInfo) :=
  let cluster_info := ClusterInfo.from_headers response.headers
  if response.status = 200 then
    match response.body.decode_kv with
    | some data => .ok { data := data, cluster_info := cluster_info }
    | none => .error (.Serialization response.body)
  else
    match response.body.decode_api with
    | some error => .error (.Api error)
    | none => .error (.Serialization response.body)

/-- src/kv.rs, lines 822–837 (`raw_set`): status `CREATED` or `OK` decodes
the body as `KeyValueInfo`; any other status decodes it as `ApiError`; a
body decoding as neither is a serialization error. -/
def raw_set_handle (response : HttpResponse) : Except Error (Response KeyValueInfo) :=
  let cluster_info := ClusterInfo.from_headers response.headers
  if response.status = 201 ∨ response.status = 200 then
    match response.body.decode_kv with
    | some data => .ok { data := data, cluster_info := cluster_info }
    | none => .error (.Serialization response.body)
  else
    match response.body.decode_api with
    | some error => .error (.Api error)
    | none => .error (.Serialization response.body)

/-! ## `raw_delete`, `raw_get`, `raw_set` (src/kv.rs) -/

/-- The `query_pairs` map built by `raw_delete` (src/kv.rs, lines 618–645),
including the early `Err(vec![Error::InvalidConditions])` return on an empty
condition set. The Rust `HashMap` is modelled as an insertion-ordered list;
all inserted keys are distinct. -/
def raw_delete_query_pairs (options : DeleteOptions) :
    Except (List Error) (List (String × String)) :=
  let query_pairs : List (String × String) := []
  let query_pairs := match options.recursive with
    | some r => query_pairs ++ [("recursive", bool_str r)]
    | none => query_pairs
  let query_pairs := match options.dir with
    | some d => query_pairs ++ [("dir", bool_str d)]
    | none => query_pairs
  match options.conditions with
  | some conditions =>
    if conditions.is_empty then .error [Error.InvalidConditions]
    else
      let query_pairs := match conditions.modified_index with
        | some mi => query_pairs ++ [("prevIndex", toString mi)]
        | none => query_pairs
      let query_pairs := match conditions.value with
        | some v => query_pairs ++ [("prevValue", v)]
        | none => query_pairs
      .ok query_pairs
  | none => .ok query_pairs

/-- src/kv.rs, lines 610–677 (`raw_delete`): build the query pairs
(fail-fast on invalid conditions), then run the per-endpoint DELETE through
`first_ok`. -/
def raw_delete (endpoints : List Uri) (transport : Transport) (key : String)
    (options : DeleteOptions) : Except (List Error) (Response KeyValueInfo) :=
  match raw_delete_query_pairs options with
  | .error errors => .error errors
  | .ok query_pairs =>
    first_ok endpoints (fun endpoint =>
      match transport .DELETE (build_uri endpoint key) query_pairs with
      | .error e => .error e
      | .ok response => raw_delete_handle response)

/-- The endpoints actually contacted by `raw_delete`. -/
def raw_delete_attempts (endpoints : List Uri) (transport : Transport)
    (key : String) (options : DeleteOptions) : List Uri :=
  match raw_delete_query_pairs options with
  | .error _ => []
  | .ok query_pairs =>
    first_ok_attempts endpoints (fun endpoint =>
      match transport .DELETE (build_uri endpoint key) query_pairs with
      | .error e => .error e
      | .ok response => raw_delete_handle response)

/-- The `query_pairs` map built by `raw_get` (src/kv.rs, lines 688–702). -/
def raw_get_query_pairs (options : GetOptionsInternal) : List (String × String) :=
  let query_pairs : List (String × String) :=
    [("recursive", bool_str options.recursive)]
  let query_pairs := match options.sort with
    | some s => query_pairs ++ [("sorted", bool_str s)]
    | none => query_pairs
  let query_pairs :=
    if options.wait then query_pairs ++ [("wait", "true")] else query_pairs
  match options.wait_index with
  | some wi => query_pairs ++ [("waitIndex", toString wi)]
  | none => query_pairs

/-- src/kv.rs, lines 680–736 (`raw_get`): build the query pairs, then run
the per-endpoint GET through `first_ok`. -/
def raw_get (endpoints : List Uri) (transport : Transport) (key : String)
    (options : GetOptionsInternal) : Except (List Error) (Response KeyValueInfo) :=
  first_ok endpoints (fun endpoint =>
    match transport .GET (build_uri endpoint key) (raw_get_query_pairs options) with
    | .error e => .error e
    | .ok response => raw_get_handle response)

/-- The `http_options` vector built by `raw_set` (src/kv.rs, lines 755–801),
in source push order, including the resolution of `prev_exist` from
`refresh` and the early `Err(vec![Error::InvalidConditions])` return. -/
def raw_set_params (options : SetOptions) :
    Except (List Error) (List (String × String)) :=
  let http_options : List (String × String) := []
  let http_options := match options.value with
    | some v => http_options ++ [("value", v)]
    | none => http_options
  let http_options := match options.ttl with
    | some ttl => http_options ++ [("ttl", toString ttl)]
    | none => http_options
  let http_options := match options.dir with
    | some d => http_options ++ [("dir", bool_str d)]
    | none => http_options
  let prev_exist := match options.prev_exist with
    | some pe => some pe
    | none => if options.refresh then some true else none
  let http_options := match prev_exist with
    | some pe => http_options ++ [("prevExist", bool_str pe)]
    | none => http_options
  let http_options :=
    if options.refresh then http_options ++ [("refresh", bool_str true)]
    else http_options
  match options.conditions with
  | some conditions =>
    if conditions.is_empty then .error [Error.InvalidConditions]
    else
      let http_options := match conditions.modified_index with
        | some mi => http_options ++ [("prevIndex", toString mi)]
        | none => http_options
      let http_options := match conditions.value with
        | some v => http_options ++ [("prevValue", v)]
        | none => http_options
      .ok http_options
  | none => .ok http_options

/-- src/kv.rs, lines 739–841 (`raw_set`): build the form parameters
(fail-fast on invalid conditions), then run the per-endpoint PUT — POST
when `create_in_order` — through `first_ok`. -/
def raw_set (endpoints : List Uri) (transport : Transport) (key : String)
    (options : SetOptions) : Except (List Error) (Response KeyValueInfo) :=
  match raw_set_params options with
  | .error errors => .error errors
  | .ok http_options =>
    first_ok endpoints (fun endpoint =>
      match transport (if options.create_in_order then .POST else .PUT)
          (build_uri endpoint key) http_options with
      | .error e => .error e
      | .ok response => raw_set_handle response)

/-- The endpoints actually contacted by `raw_set`. -/
def raw_set_attempts (endpoints : List Uri) (transport : Transport)
    (key : String) (options : SetOptions) : List Uri :=
  match raw_set_params options with
  | .error _ => []
  | .ok http_options =>
    first_ok_attempts endpoints (fun endpoint =>
      match transport (if options.create_in_order then .POST else .PUT)
          (build_uri endpoint key) http_options with
      | .error e => .error e
      | .ok response => raw_set_handle response)

/-! ## `watch` (src/kv.rs, lines 575–602) -/

/-- Options consumed by `watch` (src/kv.rs, `WatchOptions`); the timeout
duration is an abstract number of time units. -/
structure WatchOptions where
  index : Option Nat := none
  recursive : Bool := false
  timeout : Option Nat := none
deriving Repr, DecidableEq

/-- src/kv.rs, lines 575–602 (`watch`): build the long-poll `raw_get`
(`wait = true`, `wait_index` from `options.index`) over the full endpoint
list; without a timeout, await it and map `Err` to `WatchError::Other`;
with a timeout, race it against the timer (`tokio::time::timeout`), whose
winner is given by the `timer_first` oracle: the timer winning yields
`WatchError::Timeout` and discards the long-poll outcome. -/
def watch (endpoints : List Uri) (transport : Transport) (key : String)
    (options : WatchOptions) (timer_first : Bool) :
    Except WatchError (Response KeyValueInfo) :=
  let work := raw_get endpoints transport key
    { recursive := options.recursive, wait_index := options.index, wait := true }
  match options.timeout with
  | some _ =>
    if timer_first then .error WatchError.Timeout
    else work.mapError WatchError.Other
  | none => work.mapError WatchError.Other

/-! ## Client construction and fan-out (src/client.rs) -/

/-- The state a constructed client holds that the core logic reads: the
ordered endpoint list (src/client.rs, `Client`). -/
structure ClientModel where
  endpoints : List Uri

/-- src/client.rs, lines 139–158 (`Client::custom`): an empty endpoint
slice yields `Error::NoEndpoints` before any parsing; otherwise each
endpoint string is parsed in order, the first parse failure propagating via
`?`. The URI parser is the external collaborator `str::parse::<Uri>`. -/
def Client.custom (parse : String → Except Error Uri) (endpoints : List String) :
    Except Error ClientModel :=
  if endpoints.length < 1 then .error Error.NoEndpoints
  else
    match endpoints.mapM parse with
    | .error e => .error e
    | .ok uri_endpoints => .ok { endpoints := uri_endpoints }

/-- `format!("{}{}", endpoint, path)` (src/client.rs, `build_url`). -/
def build_url (endpoint : Uri) (path : String) : Uri :=
  ⟨endpoint.text ++ path⟩

/-- src/client.rs, lines 197–213 (the body of `Client::request`): status
`OK` decodes the body with the typed decoder; any other status decodes it
as `ApiError`; a body decoding as neither is a serialization error. -/
def request_handle {T : Type} (decode : Body → Option T)
    (response : HttpResponse) : Except Error (Response T) :=
  let cluster_info := ClusterInfo.from_headers response.headers
  if response.status = 200 then
    match decode response.body with
    | some data => .ok { data := data, cluster_info := cluster_info }
    | none => .error (.Serialization response.body)
  else
    match response.body.decode_api with
    | some error => .error (.Api error)
    | none => .error (.Serialization response.body)

/-- src/client.rs, lines 191–214 (`Client::request`): one GET against a
fixed URI followed by the uniform response handling. -/
def Client.request {T : Type} (transport : Transport) (decode : Body → Option T)
    (uri : Uri) : Except Error (Response T) :=
  match transport .GET uri [] with
  | .error e => .error e
  | .ok response => request_handle decode response

/-- The fan-out executor underlying `Client::health` and
`Client::versions`: `stream::iter(endpoints).map(op).buffer_unordered(n)`
drives `op` exactly once per endpoint and delivers one result per
endpoint; delivery order (completion order) is a permutation of this
per-endpoint result list. -/
def run_fanout {ρ : Type} (endpoints : List Uri) (op : Uri → ρ) : List ρ :=
  endpoints.map op

/-- The `buffer_unordered` concurrency bound used by `Client::health` and
`Client::versions`: `self.endpoints.len()`. -/
def fanout_concurrency (client : ClientModel) : Nat :=
  client.endpoints.length

/-- src/client.rs, lines 171–178 (`Client::health`): fan out a GET of
`{endpoint}health` to every endpoint. -/
def Client.health (client : ClientModel) (transport : Transport) :
    List (Except Error (Response Health)) :=
  run_fanout client.endpoints (fun endpoint =>
    Client.request transport Body.decode_health (build_url endpoint "health"))

/-- src/client.rs, lines 181–188 (`Client::versions`): fan out a GET of
`{endpoint}version` to every endpoint. -/
def Client.versions (client : ClientModel) (transport : Transport) :
    List (Except Error (Response VersionInfo)) :=
  run_fanout client.endpoints (fun endpoint =>
    Client.request transport Body.decode_version (build_url endpoint "version"))

/-! ## Concrete fixtures for witnesses -/

/-- A transport fixture: every request fails at the connection level. -/
def down_transport : Transport :=
  fun _ _ _ => .error (.Transport "connection refused")

/-- An empty header map. -/
def no_headers : HeaderMap := []

/-- A sample decoded key-value payload. -/
def sample_kv : KeyValueInfo :=
  { action := .Get,
    node := Node.mk (some 7) none none (some "/foo") (some 7) none none (some "bar") }

/-- A transport fixture: every request succeeds with status 200 and a
key-value body. -/
def ok_transport : Transport :=
  fun _ _ _ => .ok { status := 200, headers := no_headers, body := .kv sample_kv }

/-! ## Claims -/

/-- C3. Condition validation is fail-fast: a conditional write (`raw_set`)
or conditional delete (`raw_delete`) whose `ComparisonConditions` has both
`value` and `modified_index` equal to `None` returns exactly
`Err(vec![Error::InvalidConditions])`, and no endpoint is ever contacted
(the attempt list is empty), for every endpoint list and every transport. -/
theorem invalid_conditions_fail_fast
    (endpoints : List Uri) (tset tdel : Transport) (skey dkey : String)
    (sopts : SetOptions) (dopts : DeleteOptions) (c : ComparisonConditions)
    (hv : c.value = none) (hm : c.modified_index = none)
    (hs : sopts.conditions = some c) (hd : dopts.conditions = some c) :
    raw_set endpoints tset skey sopts = .error [Error.InvalidConditions] ∧
    raw_set_attempts endpoints tset skey sopts = [] ∧
    raw_delete endpoints tdel dkey dopts = .error [Error.InvalidConditions] ∧
    raw_delete_attempts endpoints tdel dkey dopts = [] := by
  have hce : c.is_empty = true := by
    simp [ComparisonConditions.is_empty, hv, hm]
  have hsp : raw_set_params sopts = .error [Error.InvalidConditions] := by
    simp [raw_set_params, hs, hce]
  have hdp : raw_delete_query_pairs dopts = .error [Error.InvalidConditions] := by
    simp [raw_delete_query_pairs, hd, hce]
  exact ⟨by simp [raw_set, hsp], by simp [raw_set_attempts, hsp],
         by simp [raw_delete, hdp], by simp [raw_delete_attempts, hdp]⟩

/-- Closed witness for C3: an all-`None` condition set on one endpoint with
a live transport still fails locally with `InvalidConditions` and contacts
nothing. -/
theorem invalid_conditions_fail_fast_witness :
    raw_set [⟨"http://a/"⟩] ok_transport "/k"
        { conditions := some { } } = .error [Error.InvalidConditions] ∧
    raw_set_attempts [⟨"http://a/"⟩] ok_transport "/k"
        { conditions := some { } } = [] ∧
    raw_delete [⟨"http://a/"⟩] ok_transport "/k"
        { conditions := some { } } = .error [Error.InvalidConditions] ∧
    raw_delete_attempts [⟨"http://a/"⟩] ok_transport "/k"
        { conditions := some { } } = [] :=
  invalid_conditions_fail_fast [⟨"http://a/"⟩] ok_transport ok_transport "/k" "/k"
    { conditions := some { } } { conditions := some { } } { } rfl rfl rfl rfl

/-- C4. Watch outcome mapping: with no timeout, the watch result is exactly
the failover outcome of the long-poll `raw_get` (success resolved as-is,
total failure wrapped in `WatchError.Other`); with a timeout whose timer
completes first, the result is `WatchError.Timeout`, independent of
whatever the long-poll would have returned (so a late long-poll result is
never delivered), and `Timeout` is distinct from every
transport/application error wrapped in `Other`. -/
theorem watch_outcome_mapping (endpoints : List Uri) (transport : Transport)
    (key : String) (options : WatchOptions) :
    (options.timeout = none → ∀ timer_first,
      watch endpoints transport key options timer_first =
        (raw_get endpoints transport key
          { recursive := options.recursive, wait_index := options.index,
            wait := true }).mapError WatchError.Other) ∧
    (∀ d, options.timeout = some d →
      watch endpoints transport key options true = .error WatchError.Timeout) ∧
    (∀ d (transport2 : Transport), options.timeout = some d →
      watch endpoints transport key options true =
        watch endpoints transport2 key options true) ∧
    (∀ errors, (WatchError.Timeout : WatchError) ≠ WatchError.Other errors) := by
  refine ⟨?_, ?_, ?_, ?_⟩
  · intro h _; simp [watch, h]
  · intro d h; simp [watch, h]
  · intro d transport2 h; simp [watch, h]
  · intro errors h; cases h

/-- Closed witness for C4: with a timeout and the timer winning, a watch
against a live cluster still reports `Timeout`, and the same watch over a
dead transport reports the same outcome. -/
theorem watch_outcome_mapping_witness :
    watch [⟨"http://a/"⟩] ok_transport "/k"
        { timeout := some 1 } true = .error WatchError.Timeout ∧
    watch [⟨"http://a/"⟩] ok_transport "/k" { timeout := some 1 } true =
      watch [⟨"http://a/"⟩] down_transport "/k" { timeout := some 1 } true :=
  ⟨(watch_outcome_mapping [⟨"http://a/"⟩] ok_transport "/k"
      { timeout := some 1 }).2.1 1 rfl,
   (watch_outcome_mapping [⟨"http://a/"⟩] ok_transport "/k"
      { timeout := some 1 }).2.2.1 1 down_transport rfl⟩

/-- C9. Fan-out covers every endpoint exactly once: `Client.health` and
`Client.versions` produce one per-endpoint result for each endpoint in
order (so none is skipped and none contacted twice), any delivered
completion-order permutation has exactly as many results as endpoints, and
the `buffer_unordered` concurrency bound equals the endpoint count. -/
theorem fanout_covers_every_endpoint (client : ClientModel)
    (transport : Transport)
    (delivered_h : List (Except Error (Response Health)))
    (delivered_v : List (Except Error (Response VersionInfo)))
    (hh : delivered_h.Perm (Client.health client transport))
    (hv : delivered_v.Perm (Client.versions client transport)) :
    delivered_h.length = client.endpoints.length ∧
    delivered_v.length = client.endpoints.length ∧
    Client.health client transport =
      client.endpoints.map (fun endpoint =>
        Client.request transport Body.decode_health
          (build_url endpoint "health")) ∧
    Client.versions client transport =
      client.endpoints.map (fun endpoint =>
        Client.request transport Body.decode_version
          (build_url endpoint "version")) ∧
    fanout_concurrency client = client.endpoints.length := by
  refine ⟨?_, ?_, rfl, rfl, rfl⟩
  · simpa [Client.health, run_fanout] using hh.length_eq
  · simpa [Client.versions, run_fanout] using hv.length_eq

/-- Closed witness for C9: three endpoints yield exactly three health
results and three version results. -/
theorem fanout_covers_every_endpoint_witness :
    (Client.health ⟨[⟨"http://a/"⟩, ⟨"http://b/"⟩, ⟨"http://c/"⟩]⟩
        down_transport).length = 3 ∧
    (Client.versions ⟨[⟨"http://a/"⟩, ⟨"http://b/"⟩, ⟨"http://c/"⟩]⟩
        down_transport).length = 3 :=
  ⟨(fanout_covers_every_endpoint ⟨[⟨"http://a/"⟩, ⟨"http://b/"⟩, ⟨"http://c/"⟩]⟩
      down_transport _ _ (List.Perm.refl _) (List.Perm.refl _)).1,
   (fanout_covers_every_endpoint ⟨[⟨"http://a/"⟩, ⟨"http://b/"⟩, ⟨"http://c/"⟩]⟩
      down_transport _ _ (List.Perm.refl _) (List.Perm.refl _)).2.1⟩

/-- C10. `first_ok` itself does not enforce non-emptiness: on an empty
endpoint vector it returns `Err` with an empty error vector and never
invokes the callback; the non-empty invariant lives in `Client::custom`,
where an empty endpoint slice yields `Error.NoEndpoints` no matter what the
URI parser would do (so before any parsing or network activity). -/
theorem empty_endpoints_split_enforcement (V E : Type) :
    (∀ callback : Uri → Except E V,
      first_ok ([] : List Uri) callback = .error [] ∧
      first_ok_attempts ([] : List Uri) callback = []) ∧
    (∀ parse : String → Except Error Uri,
      Client.custom parse [] = .error Error.NoEndpoints) :=
  ⟨fun _ => ⟨rfl, rfl⟩, fun _ => rfl⟩

/-! ## Decomposition of the parameter builders into per-field segments -/

/-- The `value` pair pushed by `raw_set`. -/
def set_value_pairs (options : SetOptions) : List (String × String) :=
  match options.value with
  | some v => [("value", v)]
  | none => []

/-- The `ttl` pair pushed by `raw_set`. -/
def set_ttl_pairs (options : SetOptions) : List (String × String) :=
  match options.ttl with
  | some ttl => [("ttl", toString ttl)]
  | none => []

/-- The `dir` pair pushed by `raw_set`. -/
def set_dir_pairs (options : SetOptions) : List (String × String) :=
  match options.dir with
  | some d => [("dir", bool_str d)]
  | none => []

/-- The effective `prev_exist` requirement of `raw_set` (src/kv.rs, lines
769–778): the explicit option when given, else `Some(true)` when
refreshing. -/
def set_prev_exist_resolved (options : SetOptions) : Option Bool :=
  match options.prev_exist with
  | some pe => some pe
  | none => if options.refresh then some true else none

/-- The `prevExist` pair pushed by `raw_set`. -/
def set_prev_exist_pairs (options : SetOptions) : List (String × String) :=
  match set_prev_exist_resolved options with
  | some pe => [("prevExist", bool_str pe)]
  | none => []

/-- The `refresh` pair pushed by `raw_set`. -/
def set_refresh_pairs (options : SetOptions) : List (String × String) :=
  if options.refresh then [("refresh", bool_str true)] else []

/-- The compare parameters pushed for a validated, non-empty condition set,
in source order (`prevIndex` then `prevValue`), shared by `raw_set` and
`raw_delete`. -/
def cond_pairs (conditions : ComparisonConditions) : List (String × String) :=
  (match conditions.modified_index with
   | some mi => [("prevIndex", toString mi)]
   | none => []) ++
  (match conditions.value with
   | some v => [("prevValue", v)]
   | none => [])

/-- The `recursive` pair inserted by `raw_delete`. -/
def del_recursive_pairs (options : DeleteOptions) : List (String × String) :=
  match options.recursive with
  | some r => [("recursive", bool_str r)]
  | none => []

/-- The `dir` pair inserted by `raw_delete`. -/
def del_dir_pairs (options : DeleteOptions) : List (String × String) :=
  match options.dir with
  | some d => [("dir", bool_str d)]
  | none => []

/-- `raw_set_params` written as the concatenation of its per-field
segments. -/
theorem raw_set_params_eq (options : SetOptions) :
    raw_set_params options =
      match options.conditions with
      | some conditions =>
        if conditions.is_empty then .error [Error.InvalidConditions]
        else
          .ok (set_value_pairs options ++ set_ttl_pairs options ++
            set_dir_pairs options ++ set_prev_exist_pairs options ++
            set_refresh_pairs options ++ cond_pairs conditions)
      | none =>
        .ok (set_value_pairs options ++ set_ttl_pairs options ++
          set_dir_pairs options ++ set_prev_exist_pairs options ++
          set_refresh_pairs options) := by
  rcases options with ⟨v, t, d, pe, c, r, cio⟩
  rcases c with _ | ⟨cv, cm⟩ <;> cases v <;> cases t <;> cases d <;>
    cases pe <;> cases r <;> try cases cv <;> try cases cm
  all_goals
    simp [raw_set_params, set_value_pairs, set_ttl_pairs, set_dir_pairs,
      set_prev_exist_pairs, set_prev_exist_resolved, set_refresh_pairs,
      cond_pairs, ComparisonConditions.is_empty]

/-- `raw_delete_query_pairs` written as the concatenation of its per-field
segments. -/
theorem raw_delete_query_pairs_eq (options : DeleteOptions) :
    raw_delete_query_pairs options =
      match options.conditions with
      | some conditions =>
        if conditions.is_empty then .error [Error.InvalidConditions]
        else
          .ok (del_recursive_pairs options ++ del_dir_pairs options ++
            cond_pairs conditions)
      | none =>
        .ok (del_recursive_pairs options ++ del_dir_pairs options) := by
  rcases options with ⟨r, d, c⟩
  rcases c with _ | ⟨cv, cm⟩ <;> cases r <;> cases d <;>
    try cases cv <;> try cases cm
  all_goals
    simp [raw_delete_query_pairs, del_recursive_pairs, del_dir_pairs,
      cond_pairs, ComparisonConditions.is_empty]

/-- Keys of the `value` segment. -/
theorem set_value_pairs_key (options : SetOptions) (k : String)
    (hk : k ≠ "value") : ((set_value_pairs options).map Prod.fst).count k = 0 := by
  cases h : options.value <;> simp [set_value_pairs, h, List.count_cons, hk]

/-- Keys of the `ttl` segment. -/
theorem set_ttl_pairs_key (options : SetOptions) (k : String)
    (hk : k ≠ "ttl") : ((set_ttl_pairs options).map Prod.fst).count k = 0 := by
  cases h : options.ttl <;> simp [set_ttl_pairs, h, List.count_cons, hk]

/-- Keys of the `dir` segment. -/
theorem set_dir_pairs_key (options : SetOptions) (k : String)
    (hk : k ≠ "dir") : ((set_dir_pairs options).map Prod.fst).count k = 0 := by
  cases h : options.dir <;> simp [set_dir_pairs, h, List.count_cons, hk]

/-- Keys of the `prevExist` segment. -/
theorem set_prev_exist_pairs_key (options : SetOptions) (k : String)
    (hk : k ≠ "prevExist") :
    ((set_prev_exist_pairs options).map Prod.fst).count k = 0 := by
  cases h : set_prev_exist_resolved options <;>
    simp [set_prev_exist_pairs, h, List.count_cons, hk]

/-- Keys of the `refresh` segment. -/
theorem set_refresh_pairs_key (options : SetOptions) (k : String)
    (hk : k ≠ "refresh") :
    ((set_refresh_pairs options).map Prod.fst).count k = 0 := by
  cases h : options.refresh <;> simp [set_refresh_pairs, h, List.count_cons, hk]

/-- Keys of the compare-parameter segment. -/
theorem cond_pairs_key (conditions : ComparisonConditions) (k : String)
    (hk1 : k ≠ "prevIndex") (hk2 : k ≠ "prevValue") :
    ((cond_pairs conditions).map Prod.fst).count k = 0 := by
  cases h1 : conditions.modified_index <;> cases h2 : conditions.value <;>
    simp [cond_pairs, h1, h2, List.count_cons, hk1, hk2]

/-- Keys of the `recursive` segment of a delete. -/
theorem del_recursive_pairs_key (options : DeleteOptions) (k : String)
    (hk : k ≠ "recursive") :
    ((del_recursive_pairs options).map Prod.fst).count k = 0 := by
  cases h : options.recursive <;>
    simp [del_recursive_pairs, h, List.count_cons, hk]

/-- Keys of the `dir` segment of a delete. -/
theorem del_dir_pairs_key (options : DeleteOptions) (k : String)
    (hk : k ≠ "dir") : ((del_dir_pairs options).map Prod.fst).count k = 0 := by
  cases h : options.dir <;> simp [del_dir_pairs, h, List.count_cons, hk]

/-- `first_ok` invokes its callback on at least the first endpoint of a
non-empty list. -/
theorem first_ok_attempts_ne_nil {ε V E : Type} (endpoints : List ε)
    (callback : ε → Except E V) (hne : endpoints ≠ []) :
    first_ok_attempts endpoints callback ≠ [] := by
  cases endpoints with
  | nil => exact absurd rfl hne
  | cons e rest =>
    simp only [first_ok_attempts]
    cases callback e <;> simp

/-- The parameter list of a successful `raw_set_params` splits into the
five unconditional segments plus a tail free of `prevExist` keys. -/
theorem raw_set_params_ok_shape (options : SetOptions)
    (ps : List (String × String)) (hok : raw_set_params options = .ok ps) :
    ∃ tail, ps = set_value_pairs options ++ set_ttl_pairs options ++
      set_dir_pairs options ++ set_prev_exist_pairs options ++
      set_refresh_pairs options ++ tail ∧
      (tail.map Prod.fst).count "prevExist" = 0 := by
  rw [raw_set_params_eq] at hok
  cases hc : options.conditions with
  | none =>
    rw [hc] at hok
    refine ⟨[], ?_, by simp⟩
    have := (Except.ok.injEq _ _).mp hok
    simp [← this]
  | some conditions =>
    rw [hc] at hok
    cases hce : conditions.is_empty with
    | true => simp [hce] at hok
    | false =>
      simp only [hce, Bool.false_eq_true, if_false, Except.ok.injEq] at hok
      refine ⟨cond_pairs conditions, ?_,
        cond_pairs_key conditions _ (by decide) (by decide)⟩
      rw [← hok]

/-- C5. Refresh implies `prevExist`: for every set operation whose
parameters are accepted, if `refresh` is set and `prev_exist` was not
explicitly given, the encoded request carries exactly one `prevExist`
parameter, with value `true`; if `prev_exist` was explicitly given, that
explicit value is the one (and only) `prevExist` parameter encoded,
whatever `refresh` is. -/
theorem refresh_implies_prev_exist (options : SetOptions)
    (ps : List (String × String)) (hok : raw_set_params options = .ok ps) :
    (options.refresh = true → options.prev_exist = none →
      ("prevExist", bool_str true) ∈ ps ∧
      (ps.map Prod.fst).count "prevExist" = 1) ∧
    (∀ b, options.prev_exist = some b →
      ("prevExist", bool_str b) ∈ ps ∧
      (ps.map Prod.fst).count "prevExist" = 1) := by
  obtain ⟨tail, hps, htail⟩ := raw_set_params_ok_shape options ps hok
  constructor
  · intro hr hpe
    have hprev : set_prev_exist_pairs options = [("prevExist", bool_str true)] := by
      simp [set_prev_exist_pairs, set_prev_exist_resolved, hpe, hr]
    constructor
    · simp [hps, hprev]
    · simp [hps, List.map_append, List.count_append, hprev, htail,
        set_value_pairs_key options "prevExist" (by decide),
        set_ttl_pairs_key options "prevExist" (by decide),
        set_dir_pairs_key options "prevExist" (by decide),
        set_refresh_pairs_key options "prevExist" (by decide)]
  · intro b hpe
    have hprev : set_prev_exist_pairs options = [("prevExist", bool_str b)] := by
      simp [set_prev_exist_pairs, set_prev_exist_resolved, hpe]
    constructor
    · simp [hps, hprev]
    · simp [hps, List.map_append, List.count_append, hprev, htail,
        set_value_pairs_key options "prevExist" (by decide),
        set_ttl_pairs_key options "prevExist" (by decide),
        set_dir_pairs_key options "prevExist" (by decide),
        set_refresh_pairs_key options "prevExist" (by decide)]

/-- Closed witness for C5: a bare refresh (`prev_exist` not given) encodes
exactly one `prevExist=true` parameter. -/
theorem refresh_implies_prev_exist_witness :
    ("prevExist", bool_str true) ∈ [("prevExist", "true"), ("refresh", "true")] ∧
    ([("prevExist", "true"), ("refresh", "true")].map Prod.fst).count
      "prevExist" = 1 :=
  (refresh_implies_prev_exist { refresh := true }
    [("prevExist", "true"), ("refresh", "true")] rfl).1 rfl rfl

/-- C6. Either condition field alone suffices: a `ComparisonConditions`
with only `value` set, or only `modified_index` set, passes validation in
both `raw_set` and `raw_delete`, and the accepted parameter list carries the
corresponding compare parameter (`prevValue` for `value`, `prevIndex` for
`modified_index`, and only that one; both when both fields are set);
moreover a non-empty condition set leads to a request actually being issued
(at least one endpoint contacted) on any non-empty endpoint list. -/
theorem single_condition_field_suffices
    (endpoints : List Uri) (tset tdel : Transport) (skey dkey : String)
    (sopts : SetOptions) (dopts : DeleteOptions) (c : ComparisonConditions)
    (hs : sopts.conditions = some c) (hd : dopts.conditions = some c)
    (hne : endpoints ≠ []) :
    (∀ v, c.value = some v → c.modified_index = none →
      ∃ ps qs, raw_set_params sopts = .ok ps ∧ ("prevValue", v) ∈ ps ∧
        (ps.map Prod.fst).count "prevIndex" = 0 ∧
        raw_delete_query_pairs dopts = .ok qs ∧ ("prevValue", v) ∈ qs ∧
        (qs.map Prod.fst).count "prevIndex" = 0) ∧
    (∀ mi, c.value = none → c.modified_index = some mi →
      ∃ ps qs, raw_set_params sopts = .ok ps ∧
        ("prevIndex", toString mi) ∈ ps ∧
        (ps.map Prod.fst).count "prevValue" = 0 ∧
        raw_delete_query_pairs dopts = .ok qs ∧
        ("prevIndex", toString mi) ∈ qs ∧
        (qs.map Prod.fst).count "prevValue" = 0) ∧
    (∀ v mi, c.value = some v → c.modified_index = some mi →
      ∃ ps qs, raw_set_params sopts = .ok ps ∧ ("prevValue", v) ∈ ps ∧
        ("prevIndex", toString mi) ∈ ps ∧
        raw_delete_query_pairs dopts = .ok qs ∧ ("prevValue", v) ∈ qs ∧
        ("prevIndex", toString mi) ∈ qs) ∧
    (c.is_empty = false →
      raw_set_attempts endpoints tset skey sopts ≠ [] ∧
      raw_delete_attempts endpoints tdel dkey dopts ≠ []) := by
  refine ⟨?_, ?_, ?_, ?_⟩
  · intro v hv hm
    have hce : c.is_empty = false := by
      simp [ComparisonConditions.is_empty, hv]
    have hcp : cond_pairs c = [("prevValue", v)] := by
      simp [cond_pairs, hv, hm]
    refine ⟨set_value_pairs sopts ++ set_ttl_pairs sopts ++
        set_dir_pairs sopts ++ set_prev_exist_pairs sopts ++
        set_refresh_pairs sopts ++ cond_pairs c,
      del_recursive_pairs dopts ++ del_dir_pairs dopts ++ cond_pairs c,
      ?_, ?_, ?_, ?_, ?_, ?_⟩
    · rw [raw_set_params_eq, hs]; simp [hce]
    · simp [hcp]
    · simp [List.map_append, List.count_append, hcp,
        set_value_pairs_key sopts "prevIndex" (by decide),
        set_ttl_pairs_key sopts "prevIndex" (by decide),
        set_dir_pairs_key sopts "prevIndex" (by decide),
        set_prev_exist_pairs_key sopts "prevIndex" (by decide),
        set_refresh_pairs_key sopts "prevIndex" (by decide)]
    · rw [raw_delete_query_pairs_eq, hd]; simp [hce]
    · simp [hcp]
    · simp [List.map_append, List.count_append, hcp,
        del_recursive_pairs_key dopts "prevIndex" (by decide),
        del_dir_pairs_key dopts "prevIndex" (by decide)]
  · intro mi hv hm
    have hce : c.is_empty = false := by
      simp [ComparisonConditions.is_empty, hm]
    have hcp : cond_pairs c = [("prevIndex", toString mi)] := by
      simp [cond_pairs, hv, hm]
    refine ⟨set_value_pairs sopts ++ set_ttl_pairs sopts ++
        set_dir_pairs sopts ++ set_prev_exist_pairs sopts ++
        set_refresh_pairs sopts ++ cond_pairs c,
      del_recursive_pairs dopts ++ del_dir_pairs dopts ++ cond_pairs c,
      ?_, ?_, ?_, ?_, ?_, ?_⟩
    · rw [raw_set_params_eq, hs]; simp [hce]
    · simp [hcp]
    · simp [List.map_append, List.count_append, hcp,
        set_value_pairs_key sopts "prevValue" (by decide),
        set_ttl_pairs_key sopts "prevValue" (by decide),
        set_dir_pairs_key sopts "prevValue" (by decide),
        set_prev_exist_pairs_key sopts "prevValue" (by decide),
        set_refresh_pairs_key sopts "prevValue" (by decide)]
    · rw [raw_delete_query_pairs_eq, hd]; simp [hce]
    · simp [hcp]
    · simp [List.map_append, List.count_append, hcp,
        del_recursive_pairs_key dopts "prevValue" (by decide),
        del_dir_pairs_key dopts "prevValue" (by decide)]
  · intro v mi hv hm
    have hce : c.is_empty = false := by
      simp [ComparisonConditions.is_empty, hv]
    have hcp : cond_pairs c = [("prevIndex", toString mi), ("prevValue", v)] := by
      simp [cond_pairs, hv, hm]
    refine ⟨set_value_pairs sopts ++ set_ttl_pairs sopts ++
        set_dir_pairs sopts ++ set_prev_exist_pairs sopts ++
        set_refresh_pairs sopts ++ cond_pairs c,
      del_recursive_pairs dopts ++ del_dir_pairs dopts ++ cond_pairs c,
      ?_, ?_, ?_, ?_, ?_, ?_⟩
    · rw [raw_set_params_eq, hs]; simp [hce]
    · simp [hcp]
    · simp [hcp]
    · rw [raw_delete_query_pairs_eq, hd]; simp [hce]
    · simp [hcp]
    · simp [hcp]
  · intro hce
    have hsp : ∃ ps, raw_set_params sopts = .ok ps := by
      rw [raw_set_params_eq, hs]; simp [hce]
    have hdp : ∃ qs, raw_delete_query_pairs dopts = .ok qs := by
      rw [raw_delete_query_pairs_eq, hd]; simp [hce]
    obtain ⟨ps, hps⟩ := hsp
    obtain ⟨qs, hqs⟩ := hdp
    constructor
    · simp only [raw_set_attempts, hps]
      exact first_ok_attempts_ne_nil _ _ hne
    · simp only [raw_delete_attempts, hqs]
      exact first_ok_attempts_ne_nil _ _ hne

/-- Closed witness for C6: a condition set with only `modified_index = 3`
is accepted by both builders and the delete parameters carry
`prevIndex=3`; the single endpoint is contacted. -/
theorem single_condition_field_suffices_witness :
    raw_delete_query_pairs { conditions := some { modified_index := some 3 } } =
      .ok [("prevIndex", "3")] ∧
    raw_set_attempts [⟨"http://a/"⟩] ok_transport "/k"
      { value := some "v", conditions := some { modified_index := some 3 } } ≠ [] := by
  have h := single_condition_field_suffices [⟨"http://a/"⟩] ok_transport
    ok_transport "/k" "/k"
    { value := some "v", conditions := some { modified_index := some 3 } }
    { conditions := some { modified_index := some 3 } }
    { modified_index := some 3 } rfl rfl (by simp)
  exact ⟨rfl, (h.2.2.2 rfl).1⟩

/-- Counterexample for C7 as stated: for reads and deletes the code treats
only status 200 as success. At status 201 with a body that decodes as the
success type, `raw_get` and `raw_delete` take the non-success branch, fail
to decode the body as an `ApiError`, and return a serialization error —
not success with the decoded typed body. -/
theorem read_delete_201_is_not_success :
    raw_get_handle { status := 201, headers := no_headers,
                     body := .kv sample_kv } =
      .error (.Serialization (.kv sample_kv)) ∧
    raw_delete_handle { status := 201, headers := no_headers,
                        body := .kv sample_kv } =
      .error (.Serialization (.kv sample_kv)) ∧
    ∀ r, raw_get_handle { status := 201, headers := no_headers,
                          body := .kv sample_kv } ≠ .ok r :=
  ⟨rfl, rfl, fun _ h => Except.noConfusion h⟩

/-- C7 (amended). Status-code to outcome mapping: writes (`raw_set`) treat
status 200 or 201 as success with the decoded typed body; reads
(`raw_get`) and deletes (`raw_delete`) treat only status 200 as success;
any non-success status yields an application error when the body decodes as
the structured API error; a body that decodes as neither the success type
nor the error type yields a serialization (malformed response) error. -/
theorem status_outcome_mapping (response : HttpResponse) :
    (∀ data, response.body.decode_kv = some data →
      ((response.status = 201 ∨ response.status = 200) →
        raw_set_handle response =
          .ok { data := data,
                cluster_info := ClusterInfo.from_headers response.headers }) ∧
      (response.status = 200 →
        raw_get_handle response =
          .ok { data := data,
                cluster_info := ClusterInfo.from_headers response.headers } ∧
        raw_delete_handle response =
          .ok { data := data,
                cluster_info := ClusterInfo.from_headers response.headers })) ∧
    (∀ error, response.body.decode_api = some error →
      (¬(response.status = 201 ∨ response.status = 200) →
        raw_set_handle response = .error (.Api error)) ∧
      (response.status ≠ 200 →
        raw_get_handle response = .error (.Api error) ∧
        raw_delete_handle response = .error (.Api error))) ∧
    (response.body.decode_kv = none → response.body.decode_api = none →
      raw_set_handle response = .error (.Serialization response.body) ∧
      raw_get_handle response = .error (.Serialization response.body) ∧
      raw_delete_handle response = .error (.Serialization response.body)) := by
  refine ⟨?_, ?_, ?_⟩
  · intro data hdec
    constructor
    · intro hst; simp [raw_set_handle, hst, hdec]
    · intro hst
      constructor <;> simp [raw_get_handle, raw_delete_handle, hst, hdec]
  · intro error hdec
    constructor
    · intro hst; simp [raw_set_handle, hst, hdec]
    · intro hst
      constructor <;> simp [raw_get_handle, raw_delete_handle, hst, hdec]
  · intro h1 h2
    refine ⟨?_, ?_, ?_⟩
    · simp only [raw_set_handle]
      split
      · simp [h1]
      · simp [h2]
    · simp only [raw_get_handle]
      split
      · simp [h1]
      · simp [h2]
    · simp only [raw_delete_handle]
      split
      · simp [h1]
      · simp [h2]

/-- Closed witness for C7 (amended): a 404 whose body decodes as the
structured API error maps to an application error on a read. -/
theorem status_outcome_mapping_witness :
    raw_get_handle { status := 404, headers := no_headers,
                     body := .api { message := "Key not found" } } =
      .error (.Api { message := "Key not found" }) :=
  (((status_outcome_mapping { status := 404, headers := no_headers,
                              body := .api { message := "Key not found" } }).2.1
    { message := "Key not found" } rfl).2 (by decide)).1

/-! ## Header field decoders (for C8) -/

/-- The decoding the `ClusterInfo` conversion applies to the cluster-id
header: UTF-8 only. -/
def header_string_field (v : Option HeaderValue) : Option String :=
  v.bind fun v =>
    match v with
    | .utf8 s => some s
    | .invalid => none

/-- The decoding the `ClusterInfo` conversion applies to each numeric
header: UTF-8, then `u64` parse. -/
def header_u64_field (v : Option HeaderValue) : Option Nat :=
  v.bind fun v =>
    match v with
    | .utf8 s => parse_u64 s
    | .invalid => none

/-- C8. Cluster metadata is independently best-effort: each of the four
`ClusterInfo` fields is a function of its own header only (so a missing or
malformed header changes that field alone, never the other three); a
missing header, an invalid-UTF-8 value, and an unparsable numeric value all
decode to `none`; and the headers never decide the success or failure of
the overall operation. -/
theorem cluster_info_best_effort (headers : HeaderMap) :
    ((ClusterInfo.from_headers headers).cluster_id =
        header_string_field (headers.get XETCD_CLUSTER_ID) ∧
     (ClusterInfo.from_headers headers).etcd_index =
        header_u64_field (headers.get XETCD_INDEX) ∧
     (ClusterInfo.from_headers headers).raft_index =
        header_u64_field (headers.get XRAFT_INDEX) ∧
     (ClusterInfo.from_headers headers).raft_term =
        header_u64_field (headers.get XRAFT_TERM)) ∧
    (header_string_field none = none ∧
     header_u64_field none = none ∧
     header_string_field (some .invalid) = none ∧
     header_u64_field (some .invalid) = none ∧
     (∀ s, parse_u64 s = none → header_u64_field (some (.utf8 s)) = none)) ∧
    (∀ status body (headers2 : HeaderMap),
      (raw_set_handle { status := status, headers := headers,
                        body := body }).isOk =
      (raw_set_handle { status := status, headers := headers2,
                        body := body }).isOk) := by
  refine ⟨⟨rfl, rfl, rfl, rfl⟩,
    ⟨rfl, rfl, rfl, rfl, fun s hs => by simp [header_u64_field, hs]⟩, ?_⟩
  intro status body headers2
  by_cases hst : status = 201 ∨ status = 200 <;>
    cases hb : body.decode_kv <;> cases ha : body.decode_api <;>
      simp [raw_set_handle, hst, hb, ha, Except.isOk, Except.toBool]

/-- Closed witness for C8: an unparsable numeric header value decodes to
`none`. -/
theorem cluster_info_best_effort_witness :
    header_u64_field (some (.utf8 "not-a-number")) = none :=
  (cluster_info_best_effort no_headers).2.1.2.2.2.2 "not-a-number" (by decide)

end Etcd
